import Mathlib

/-!
Verification development for the CryptoRecover repository.

This file gives a shallow embedding, in Lean 4, of the parts of the source
that the specification's claims talk about:

* `src/lib/bip39.ts` - the BIP39 wordlist and seed-phrase analysis;
* the basic learning model (`ml-learning`: `MLState`, `learnFromSuccess`,
  `chooseAdaptiveStrategy`, the per-position branch of `generateHybridBased`);
* the advanced learning model (`ml-advanced`: `applyPatternDecay`,
  `mapToObject` / `objectToMap` serialization helpers);
* the ML controller (`ml-control`: `setHybridWeights`);
* the blockchain API layer (`blockchain-api`: `checkEthereumBalance`,
  `checkBitcoinBalance`, `checkWalletBalanceWithRetry`).

JavaScript `Map`s are modelled as association lists in insertion order
(`Map.set` updates an existing key in place, otherwise appends; `Map.get`
returns the first binding).  JavaScript numbers are modelled as `Nat`, `Int`
or `Rat` as appropriate, and as `Real` where the source raises numbers to
non-integer powers (`Math.pow`).  Timestamps (`Date`) are modelled as integer
milliseconds.
-/

set_option maxRecDepth 40000

namespace CryptoRecover

section AssocMap

variable {K : Type} {V : Type} [DecidableEq K]

/-- JS `Map.get k`: the value of the first binding of `k`, if any. -/
def mget (m : List (K × V)) (k : K) : Option V :=
  (m.find? (fun p => p.1 = k)).map (fun p => p.2)

/-- JS `Map.set k v`: update the binding of `k` in place if present
(keeping insertion order), otherwise append `(k, v)` at the end. -/
def mset (m : List (K × V)) (k : K) (v : V) : List (K × V) :=
  if (m.find? (fun p => p.1 = k)).isSome then
    m.map (fun p => if p.1 = k then (k, v) else p)
  else
    m ++ [(k, v)]

/-- JS `Map.delete k`: remove every binding of `k`. -/
def mdelete (m : List (K × V)) (k : K) : List (K × V) :=
  m.filter (fun p => ¬ p.1 = k)

end AssocMap

/-! ## src/lib/bip39.ts -/

/-- The `BIP39_WORDLIST` constant of `src/lib/bip39.ts` (lines 7-35),
transcribed verbatim, in order.  The source comment marks it as an
abbreviated version of the real BIP39 list ("Add more words here"). -/
def BIP39_WORDLIST : List String :=
  [
    "abandon", "ability", "able", "about", "above", "absent", "absorb", "abstract", "absurd", "abuse",
    "access", "accident", "account", "accuse", "achieve", "acid", "acoustic", "acquire", "across", "act",
    "action", "actor", "actress", "actual", "adapt", "add", "addict", "address", "adjust", "admit",
    "adult", "advance", "advice", "aerobic", "affair", "afford", "afraid", "again", "age", "agent",
    "agree", "ahead", "aim", "air", "airport", "aisle", "alarm", "album", "alcohol", "alert",
    "alien", "all", "alley", "allow", "almost", "alone", "alpha", "already", "also", "alter",
    "always", "amateur", "amazing", "among", "amount", "amused", "analyst", "anchor", "ancient", "anger",
    "angle", "angry", "animal", "ankle", "announce", "annual", "another", "answer", "antenna", "antique",
    "anxiety", "any", "apart", "apology", "appear", "apple", "approve", "april", "arch", "arctic",
    "area", "arena", "argue", "arm", "armed", "armor", "army", "around", "arrange", "arrest",
    "arrest", "arrive", "arrow", "art", "artefact", "artist", "artwork", "ask", "aspect", "assault",
    "asset", "assist", "assume", "asthma", "athlete", "atom", "attack", "attend", "attitude", "attract",
    "auction", "audit", "august", "aunt", "author", "auto", "autumn", "average", "avocado", "avoid",
    "awake", "aware", "away", "awesome", "awful", "awkward", "axis", "baby", "bachelor", "bacon",
    "badge", "bag", "balance", "balcony", "ball", "bamboo", "banana", "banner", "bar", "barely",
    "bargain", "barrel", "base", "basic", "basket", "battle", "beach", "bean", "beauty", "because",
    "become", "beef", "before", "begin", "behave", "behind", "believe", "below", "belt", "bench",
    "benefit", "best", "betray", "better", "between", "beyond", "bicycle", "bid", "bike", "bind",
    "biology", "bird", "birth", "bitter", "black", "blade", "blame", "blanket", "blast", "bleak",
    "bless", "blind", "blood", "blossom", "blouse", "blue", "blur", "blush", "board", "boat",
    "body", "boil", "bomb", "bone", "bonus", "book", "boost", "border", "boring", "borrow",
    "boss", "bottom", "bounce", "box", "boy", "bracket", "brain", "brand", "brass", "brave",
    "bread", "breeze", "brick", "bridge", "brief", "bright", "bring", "brisk", "broccoli", "broken",
    "bronze", "broom", "brother", "brown", "brush", "bubble", "buddy", "budget", "buffalo", "build",
    "bulb", "bulk", "bullet", "bundle", "bunker", "burden", "burger", "burst", "bus", "business",
    "busy", "butter", "buyer", "buzz", "cabbage", "cabin", "cable", "cactus", "cage", "cake"
  ]

/-- JavaScript `String.prototype.toLowerCase`, written characterwise over
`String.data` so that it evaluates by kernel reduction. -/
def jsToLower (s : String) : String :=
  String.mk (s.data.map Char.toLower)

/-- The `isValidBIP39Word` function of `src/lib/bip39.ts`: membership of the
lowercased word in `BIP39_SET` (a `Set` built from `BIP39_WORDLIST`, so
membership agrees with list membership). -/
def isValidBIP39Word (word : String) : Bool :=
  BIP39_WORDLIST.contains (jsToLower word)

/-- Split a character list at every whitespace character, keeping empty
pieces, as JavaScript `split` does before its regex collapses them. -/
def splitWsAux : List Char → List Char → List (List Char)
  | [], acc => [acc.reverse]
  | c :: cs, acc =>
    if c.isWhitespace then acc.reverse :: splitWsAux cs [] else splitWsAux cs (c :: acc)

/-- The tokenization `phrase.trim().toLowerCase().split(/\s+/)` used by
`analyzeSeedPhrase` and `learnFromSuccess`.  After `trim`, splitting on the
regex `\s+` yields the maximal whitespace-free runs of the string, except
that the empty string yields `[""]` in JavaScript.  (Lowercasing commutes
with trimming, and `Char.isWhitespace` plays the role of the regex class
`\s` for the ASCII whitespace that the repository's phrases use.) -/
def jsTrimLowerSplit (phrase : String) : List String :=
  let cs := (phrase.data.map Char.toLower).dropWhile Char.isWhitespace
  let cs := (cs.reverse.dropWhile Char.isWhitespace).reverse
  if cs = [] then [""]
  else ((splitWsAux cs []).filter (fun w => ¬ w = [])).map (fun w => String.mk w)

/-- Result record of `analyzeSeedPhrase` (`src/lib/bip39.ts` lines 75-112).
The `commonMistakes` field is not modelled: it is a list of human-readable
hint strings computed from `invalidWords` alone and is read by no claim. -/
structure SeedAnalysis where
  words : List String
  validWords : List String
  invalidWords : List String
  missingWords : Int
  deriving Repr, DecidableEq

/-- The `analyzeSeedPhrase` function of `src/lib/bip39.ts` (lines 75-112):
tokenize, filter empty tokens, partition by wordlist membership, and report
`missingWords = (words.length <= 12 ? 12 : 24) - validWords.length`. -/
def analyzeSeedPhrase (phrase : String) : SeedAnalysis :=
  let words := (jsTrimLowerSplit phrase).filter (fun w => 0 < w.length)
  let validWords := words.filter (fun w => isValidBIP39Word w)
  let invalidWords := words.filter (fun w => ¬ isValidBIP39Word w = true)
  { words := words
    validWords := validWords
    invalidWords := invalidWords
    missingWords := (if words.length ≤ 12 then (12 : Int) else 24) - validWords.length }

/-! ## ml-learning module (basic learning model) -/

/-- The `GenerationStrategy` union type of the ml-learning module. -/
inductive GenerationStrategy
  | random
  | frequency
  | positional
  | correlated
  | hybrid
  | adaptive
  deriving Repr, DecidableEq

/-- An entry of `MLState.successPatterns` (never consulted by generation). -/
structure SuccessPattern where
  pattern : String
  successRate : ℚ
  timesUsed : ℕ
  deriving Repr, DecidableEq

/-- The `MLState` interface of the ml-learning module.  `Map`s become
association lists in insertion order; `lastUpdated : Date` becomes integer
milliseconds. -/
structure MLState where
  wordFrequency : List (String × ℕ)
  positionPreferences : List (ℕ × List (String × ℕ))
  wordPairs : List (String × List (String × ℕ))
  successPatterns : List SuccessPattern
  totalSuccesses : ℕ
  totalAttempts : ℕ
  lastUpdated : Int
  deriving Repr, DecidableEq

/-- The baseline state built by `initializeMLState` when no persisted state
exists: all maps empty, counters zero. -/
def freshMLState (now : Int) : MLState :=
  { wordFrequency := []
    positionPreferences := []
    wordPairs := []
    successPatterns := []
    totalSuccesses := 0
    totalAttempts := 0
    lastUpdated := now }

/-- The `learnFromSuccess` function of the ml-learning module (lines 78-122):
tokenize the phrase, bump `wordFrequency` per token, bump
`positionPreferences[index][token]` per index, bump
`wordPairs[token_i][token_(i+1)]` per adjacent pair, increment
`totalSuccesses` and stamp `lastUpdated`.  The `walletType` and `balanceUSD`
arguments are only logged by the source and do not affect the state; `now` is
the `new Date()` timestamp. -/
def learnFromSuccess (state : MLState) (seedPhrase : String) (walletType : String)
    (balanceUSD : ℚ) (now : Int) : MLState :=
  let words := jsTrimLowerSplit seedPhrase
  let wf := words.foldl
    (fun m word => mset m word ((mget m word).getD 0 + 1)) state.wordFrequency
  let pp := words.enum.foldl
    (fun m iw =>
      let positionMap := (mget m iw.1).getD []
      mset m iw.1 (mset positionMap iw.2 ((mget positionMap iw.2).getD 0 + 1)))
    state.positionPreferences
  let wp := (words.zip words.tail).foldl
    (fun m ww =>
      let pairMap := (mget m ww.1).getD []
      mset m ww.1 (mset pairMap ww.2 ((mget pairMap ww.2).getD 0 + 1)))
    state.wordPairs
  { state with
    wordFrequency := wf
    positionPreferences := pp
    wordPairs := wp
    totalSuccesses := state.totalSuccesses + 1
    lastUpdated := now }

/-- The `chooseAdaptiveStrategy` function of the ml-learning module
(lines 170-188), selecting a concrete strategy from `totalSuccesses`. -/
def chooseAdaptiveStrategy (state : MLState) : GenerationStrategy :=
  if state.totalSuccesses < 10 then .random
  else if state.totalSuccesses < 50 then .frequency
  else if state.totalSuccesses < 100 then .positional
  else .hybrid

/-- Which statistical source a position's token is drawn from inside
`generateHybridBased`. -/
inductive HybridSource
  | positional
  | correlated
  | frequency
  | random
  deriving Repr, DecidableEq

/-- The per-position branch structure of `generateHybridBased` (ml-learning
module, lines 305-341).  The loop body consumes up to two `Math.random()`
draws, modelled by `r1` and `r2`:

* `if (Math.random() < 0.4 && state.positionPreferences.has(position))` —
  `r1` is the first draw, `hasPosPref` the `has(position)` test, and
  `posNonempty` the inner `positionMap.size > 0` test;
* `else if (Math.random() < 0.7 && position > 0 &&
  state.wordPairs.has(words[position - 1]))` — `r2` is the second, fresh
  draw, `hasPrevPair` the `has(words[position - 1])` test, `pairNonempty`
  the inner `pairMap.size > 0` test;
* `else if (state.wordFrequency.size > 0)` — `freqNonempty`;
* `else` uniform random fallback.

The returned constructor records which distribution the position's token is
drawn from. -/
def hybridBranchChoice (r1 r2 : ℚ) (position : ℕ) (hasPosPref posNonempty
    hasPrevPair pairNonempty freqNonempty : Bool) : HybridSource :=
  if r1 < 2/5 ∧ hasPosPref then
    (if posNonempty then .positional else .random)
  else if r2 < 7/10 ∧ 0 < position ∧ hasPrevPair then
    (if pairNonempty then .correlated else .random)
  else if freqNonempty then .frequency
  else .random

/-- Discretization of the pair of `Math.random()` draws on a uniform
100 × 100 grid (`r1 = a/100`, `r2 = b/100` for `a, b < 100`): the number of
grid cells on which `hybridBranchChoice`, at a position greater than zero
with every learned distribution present and non-empty, draws from `src`.
Out of the 10000 equiprobable cells, the cell count divided by 10000 is the
probability of the source under the discretized uniform distribution. -/
def hybridGridCount (src : HybridSource) : ℕ :=
  (((List.range 100).map (fun a : ℕ =>
    ((List.range 100).filter (fun b : ℕ =>
      hybridBranchChoice ((a : ℚ) / 100) ((b : ℚ) / 100) 1
        true true true true true = src)).length)).sum)

/-! ## ml-control module (MLController) -/

/-- The `hybridWeights` block of `MLConfig` in the ml-control module. -/
structure HybridWeights where
  frequency : ℚ
  positional : ℚ
  correlation : ℚ
  deriving Repr, DecidableEq

/-- The `DEFAULT_ML_CONFIG.hybridWeights` value. -/
def defaultHybridWeights : HybridWeights :=
  { frequency := 3/10, positional := 4/10, correlation := 3/10 }

/-- The partial-update argument of `MLController.setHybridWeights`: each
field is optionally overridden. -/
structure HybridWeightsUpdate where
  frequency : Option ℚ
  positional : Option ℚ
  correlation : Option ℚ
  deriving Repr, DecidableEq

/-- The merge `{...this.config.hybridWeights, ...weights}` performed by
`setHybridWeights`: a field present in the update replaces the stored one. -/
def mergeHybridWeights (stored : HybridWeights) (u : HybridWeightsUpdate) : HybridWeights :=
  { frequency := u.frequency.getD stored.frequency
    positional := u.positional.getD stored.positional
    correlation := u.correlation.getD stored.correlation }

/-- The local `sum` of `setHybridWeights`. -/
def weightsSum (w : HybridWeights) : ℚ :=
  w.frequency + w.positional + w.correlation

/-- The `MLController.setHybridWeights` method (ml-control module, lines
175-192): merge the partial update into the stored weights, throw a
validation error when `Math.abs(sum - 1.0) > 0.01`, otherwise persist
exactly the merged weights.  The throw happens before `saveConfig`, so on
error the stored configuration is untouched; `Except.error` models the
thrown `Error`. -/
def setHybridWeights (stored : HybridWeights) (u : HybridWeightsUpdate) :
    Except String HybridWeights :=
  let newWeights := mergeHybridWeights stored u
  if |weightsSum newWeights - 1| > 1/100 then
    .error "Hybrid weights must sum to 1.0"
  else
    .ok newWeights

/-- The weights the controller holds after a `setHybridWeights` call: the
merged weights on success, the previous weights when the call threw. -/
def storedAfterSetHybridWeights (stored : HybridWeights) (u : HybridWeightsUpdate) :
    HybridWeights :=
  match setHybridWeights stored u with
  | .ok w => w
  | .error _ => stored

/-! ## ml-advanced module: state serialization helpers -/

/-- A JavaScript `Map` key as the advanced state uses them: `Map` keys keep
their runtime type, so the string `"7"` and the number `7` are distinct
keys. -/
inductive JSKey
  | str : String → JSKey
  | num : ℕ → JSKey
  deriving Repr, DecidableEq

/-- The string a key is converted to when used as a plain-object property
name (JavaScript `ToPropertyKey`): numbers print in decimal. -/
def JSKey.toPropertyKey : JSKey → String
  | .str s => s
  | .num n => toString n

/-- The `mapToObject` helper of the ml-advanced module (lines 855-867), at
the non-nested, no-transform call sites such as
`wordLengthDistribution: mapToObject(state.wordLengthDistribution)`:
each `Map` entry becomes an object property, the key passing through
`ToPropertyKey` (so number keys become decimal strings).  The model keeps
properties in insertion order; no theorem below depends on JavaScript's
numeric-first property enumeration order. -/
def mapToObject (m : List (JSKey × ℕ)) : List (String × ℕ) :=
  m.foldl (fun obj kv => mset obj kv.1.toPropertyKey kv.2) []

/-- The `objectToMap` helper of the ml-advanced module (lines 872-886), at
the same call sites: every property of the object becomes a `Map` entry
whose key is the property name — always a string, whatever the original
key's type was. -/
def objectToMap (o : List (String × ℕ)) : List (JSKey × ℕ) :=
  o.foldl (fun m kv => mset m (JSKey.str kv.1) kv.2) []

/-- The tokenization `seedPhrase.trim().split(/\s+/)` used by
`learnFromSuccessAdvanced` (ml-advanced module, line 453) — unlike the basic
model it does not lowercase. -/
def jsTrimSplit (phrase : String) : List String :=
  let cs := phrase.data.dropWhile Char.isWhitespace
  let cs := (cs.reverse.dropWhile Char.isWhitespace).reverse
  if cs = [] then [""]
  else ((splitWsAux cs []).filter (fun w => ¬ w = [])).map (fun w => String.mk w)

/-- The `wordLengthDistribution` update performed by
`updateWordLengthStats` (ml-advanced module, lines 560-575):
`state.wordLengthDistribution.set(len, (get(len) || 0) + 1)` for the length
`len` of each word — the keys are JavaScript numbers. -/
def updateWordLengthDistribution (dist : List (JSKey × ℕ)) (words : List String) :
    List (JSKey × ℕ) :=
  words.foldl
    (fun d word =>
      mset d (JSKey.num word.length) ((mget d (JSKey.num word.length)).getD 0 + 1))
    dist

/-- The 12-word test phrase of the specification's first scenario. -/
def twelveWordPhrase : String :=
  "abandon ability able about above absent absorb abstract absurd abuse access accident"

/-- The `wordLengthDistribution` map after learning `twelveWordPhrase` from
a fresh advanced state (only `updateWordLengthStats` writes this map). -/
def sampleWordLengthDistribution : List (JSKey × ℕ) :=
  updateWordLengthDistribution [] (jsTrimSplit twelveWordPhrase)

/-! ## ml-advanced module: pattern decay

`applyPatternDecay` (ml-advanced module, lines 679-701) reads and writes
only `patternAges`, `patternScores` and the `decayRate` / `minPatternAge`
entries of `config`; the model restricts the advanced state to exactly
those fields (all others pass through a decay call untouched).  Scores are
real numbers because the source raises `decayRate` to the non-integer power
`daysOld - minPatternAge` (`Math.pow`); timestamps are integer
milliseconds. -/

/-- The `decayRate` / `minPatternAge` entries of the advanced state's
`config` block (defaults `0.95` and `7` days). -/
structure AdvDecayConfig where
  decayRate : ℝ
  minPatternAge : ℝ

/-- The slice of `AdvancedMLState` that `applyPatternDecay` touches. -/
structure AdvDecayState where
  patternAges : List (String × Int)
  patternScores : List (String × ℝ)
  config : AdvDecayConfig

open Classical in
/-- The body of the `for (const [pattern, timestamp] of
state.patternAges.entries())` loop of `applyPatternDecay`, acting on the
accumulated `(patternScores, patternAges)` pair: when the entry's age
exceeds `minPatternAge` days, multiply its score by
`decayRate ^ (daysOld - minPatternAge)` and delete the pattern from both
maps when the new score falls below `0.5`. -/
noncomputable def decayPatternStep (now : Int) (cfg : AdvDecayConfig)
    (acc : List (String × ℝ) × List (String × Int)) (entry : String × Int) :
    List (String × ℝ) × List (String × Int) :=
  let age : Int := now - entry.2
  if (age : ℝ) > cfg.minPatternAge * (24 * 60 * 60 * 1000) then
    let currentScore := (mget acc.1 entry.1).getD 0
    let daysOld : ℝ := (age : ℝ) / (24 * 60 * 60 * 1000)
    let decayFactor := cfg.decayRate ^ (daysOld - cfg.minPatternAge)
    let newScore := currentScore * decayFactor
    if newScore < 0.5 then (mdelete acc.1 entry.1, mdelete acc.2 entry.1)
    else (mset acc.1 entry.1 newScore, acc.2)
  else acc

/-- The `applyPatternDecay` function of the ml-advanced module (lines
679-701): fold the loop body over the pattern-age entries.  Note that the
loop never refreshes `patternAges`, so an already-decayed pattern is just as
old on the next call. -/
noncomputable def applyPatternDecay (now : Int) (s : AdvDecayState) : AdvDecayState :=
  let res := s.patternAges.foldl (decayPatternStep now s.config) (s.patternScores, s.patternAges)
  { s with patternScores := res.1, patternAges := res.2 }

/-- A decayable state: one tracked pattern, learned at epoch 0, with score 4,
under `decayRate = 1/2` and `minPatternAge = 7` days. -/
noncomputable def decayState0 : AdvDecayState :=
  { patternAges := [("abandon ability able", 0)]
    patternScores := [("abandon ability able", 4)]
    config := { decayRate := 1/2, minPatternAge := 7 } }

/-- Eight days, in milliseconds: the `new Date()` instant of the decay calls
below, one day past the pattern's `minPatternAge`. -/
def day8ms : Int := 8 * 86400000

/-! ## blockchain-api module -/

/-- The `WalletBalance` record of the blockchain-api module.  The source
formats `balance` and `balanceUSD` with `toFixed`; the model keeps the
numeric values. -/
structure WalletBalance where
  address : String
  balance : ℚ
  balanceUSD : ℚ
  transactionCount : Int
  hasBalance : Bool
  deriving Repr, DecidableEq

/-- The zero-balance fallback object the module returns whenever a check
fails. -/
def zeroWalletBalance (address : String) : WalletBalance :=
  { address := address
    balance := 0
    balanceUSD := 0
    transactionCount := 0
    hasBalance := false }

/-- The `EtherscanResponse` shape; `result` models the Wei balance carried
in the JSON string (parsed by `BigInt`). -/
structure EtherscanResponse where
  status : String
  message : String
  result : Int
  deriving Repr, DecidableEq

/-- The transaction-count response; `none` models a missing `result` field
(the source falls back to `0`). -/
structure EthTxCountResponse where
  result : Option Int
  deriving Repr, DecidableEq

/-- The price response; `none` models a missing `result.ethusd` field (the
source falls back to `2000`). -/
structure EthPriceResponse where
  ethusd : Option ℚ
  deriving Repr, DecidableEq

/-- The `BlockchainBTCResponse` shape (satoshi balance and transaction
count). -/
structure BlockchainBTCResponse where
  final_balance : Int
  n_tx : Int
  deriving Repr, DecidableEq

/-- One invocation's upstream world for the Etherscan path: each of the up
to three `fetch`es either yields a parsed response or fails (a rejected
promise / thrown transport error). -/
structure EthUpstream where
  balanceCall : Except String EtherscanResponse
  txCountCall : Except String EthTxCountResponse
  priceCall : Except String EthPriceResponse

/-- One invocation's upstream world for the Blockchain.com path. -/
structure BtcUpstream where
  rawAddrCall : Except String BlockchainBTCResponse

/-- One invocation's upstream world for either currency. -/
structure Upstream where
  eth : EthUpstream
  btc : BtcUpstream

/-- The `try` block of `checkEthereumBalance` (blockchain-api module, lines
95-135): query the balance, and when `status === '1'` also the transaction
count and the ETH price, throwing on any transport failure or on a
non-success status.  The rate-limiter wrapping only sequences the calls and
is elided. -/
def checkEthereumBalanceTry (address : String) (u : EthUpstream) :
    Except String WalletBalance := do
  let response ← u.balanceCall
  if response.status = "1" then
    let balanceETH : ℚ := (response.result : ℚ) / 10 ^ 18
    let txResp ← u.txCountCall
    let txCount : Int := txResp.result.getD 0
    let priceResp ← u.priceCall
    let ethPrice : ℚ := priceResp.ethusd.getD 2000
    pure { address := address
           balance := balanceETH
           balanceUSD := balanceETH * ethPrice
           transactionCount := txCount
           hasBalance := decide (0 < balanceETH) }
  else
    throw ("Etherscan API error: " ++ response.message)

/-- The `checkEthereumBalance` function (lines 89-148): its `catch` absorbs
every failure of the `try` block and returns the zero-balance fallback, so
the function itself never throws. -/
def checkEthereumBalance (address : String) (u : EthUpstream) :
    Except String WalletBalance :=
  match checkEthereumBalanceTry address u with
  | .ok w => .ok w
  | .error _ => .ok (zeroWalletBalance address)

/-- The `try` block of `checkBitcoinBalance` (lines 154-179). -/
def checkBitcoinBalanceTry (address : String) (u : BtcUpstream) :
    Except String WalletBalance := do
  let response ← u.rawAddrCall
  let balanceBTC : ℚ := (response.final_balance : ℚ) / 10 ^ 8
  let btcPrice : ℚ := 45000
  pure { address := address
         balance := balanceBTC
         balanceUSD := balanceBTC * btcPrice
         transactionCount := response.n_tx
         hasBalance := decide (0 < balanceBTC) }

/-- The `checkBitcoinBalance` function (lines 153-192): like the Ethereum
path, its `catch` absorbs every failure and returns the zero-balance
fallback. -/
def checkBitcoinBalance (address : String) (u : BtcUpstream) :
    Except String WalletBalance :=
  match checkBitcoinBalanceTry address u with
  | .ok w => .ok w
  | .error _ => .ok (zeroWalletBalance address)

/-- The currency selector of `checkWalletBalanceWithRetry`. -/
inductive WalletType
  | ETH
  | BTC
  deriving Repr, DecidableEq

/-- One iteration target of the retry loop: the per-currency checker chosen
by `type`, run against attempt `n`'s upstream world. -/
def checkOnce (address : String) (type : WalletType) (u : Upstream) :
    Except String WalletBalance :=
  match type with
  | .ETH => checkEthereumBalance address u.eth
  | .BTC => checkBitcoinBalance address u.btc

/-- The `for (let attempt = 0; attempt < maxRetries; attempt++)` loop of
`checkWalletBalanceWithRetry` (lines 205-221), with the exponential-backoff
sleeps elided (they only delay the next iteration).  Returns the result
together with the number of checker invocations performed; when the loop
exhausts its attempts it falls through to the zero-balance fallback of lines
226-232. -/
def retryLoop (address : String) (type : WalletType) (worlds : ℕ → Upstream) :
    ℕ → ℕ → WalletBalance × ℕ
  | 0, attemptsMade => (zeroWalletBalance address, attemptsMade)
  | n + 1, attemptsMade =>
    match checkOnce address type (worlds attemptsMade) with
    | .ok w => (w, attemptsMade + 1)
    | .error _ => retryLoop address type worlds n (attemptsMade + 1)

/-- The `checkWalletBalanceWithRetry` function (lines 197-233); the source's
default retry bound is `maxRetries = 3`.  `worlds n` is the upstream
behaviour seen by attempt `n`. -/
def checkWalletBalanceWithRetry (address : String) (type : WalletType)
    (worlds : ℕ → Upstream) (maxRetries : ℕ) : WalletBalance × ℕ :=
  retryLoop address type worlds maxRetries 0

/-- An upstream world in which every fetch fails on every attempt. -/
def allFailWorlds : ℕ → Upstream := fun _ =>
  { eth := { balanceCall := .error "fetch failed"
             txCountCall := .error "fetch failed"
             priceCall := .error "fetch failed" }
    btc := { rawAddrCall := .error "fetch failed" } }

/-- Whether every upstream fetch of the given currency fails in world
`u`. -/
def upstreamFails (type : WalletType) (u : Upstream) : Prop :=
  match type with
  | .ETH => ∃ e, u.eth.balanceCall = .error e
  | .BTC => ∃ e, u.btc.rawAddrCall = .error e

/-! ## Theorems -/

/-- C4: the claim states that no token occurs at two distinct indices of the
fixed BIP39 wordlist, but the source list repeats `"arrest"` at indices 99
and 100 (the row boundary around the "Add more words here" comment), so the
list is not duplicate-free. -/
theorem bip39_wordlist_arrest_duplicated :
    BIP39_WORDLIST[99]? = some "arrest" ∧ BIP39_WORDLIST[100]? = some "arrest" ∧
    BIP39_WORDLIST.count "arrest" = 2 ∧ ¬ BIP39_WORDLIST.Nodup := by
  refine ⟨by decide, by decide, by decide, fun h => ?_⟩
  have h1 := List.nodup_iff_count_le_one.mp h "arrest"
  have h2 : BIP39_WORDLIST.count "arrest" = 2 := by decide
  omega

/-- C5: `chooseAdaptiveStrategy` resolves to random below 10 total
successes, frequency from 10 to 49, positional from 50 to 99, and hybrid
from 100 on. -/
theorem chooseAdaptiveStrategy_thresholds (s : MLState) :
    (s.totalSuccesses < 10 → chooseAdaptiveStrategy s = .random) ∧
    (10 ≤ s.totalSuccesses → s.totalSuccesses < 50 → chooseAdaptiveStrategy s = .frequency) ∧
    (50 ≤ s.totalSuccesses → s.totalSuccesses < 100 → chooseAdaptiveStrategy s = .positional) ∧
    (100 ≤ s.totalSuccesses → chooseAdaptiveStrategy s = .hybrid) := by
  unfold chooseAdaptiveStrategy
  refine ⟨fun h => ?_, fun h1 h2 => ?_, fun h1 h2 => ?_, fun h => ?_⟩ <;>
    split_ifs <;> first | rfl | omega

/-- Witness for C5: the four threshold bands at 9, 10, 50 and 100 total
successes. -/
theorem chooseAdaptiveStrategy_thresholds_witness :
    chooseAdaptiveStrategy { freshMLState 0 with totalSuccesses := 9 } = .random ∧
    chooseAdaptiveStrategy { freshMLState 0 with totalSuccesses := 10 } = .frequency ∧
    chooseAdaptiveStrategy { freshMLState 0 with totalSuccesses := 50 } = .positional ∧
    chooseAdaptiveStrategy { freshMLState 0 with totalSuccesses := 100 } = .hybrid :=
  ⟨(chooseAdaptiveStrategy_thresholds _).1 (by decide),
   (chooseAdaptiveStrategy_thresholds _).2.1 (by decide) (by decide),
   (chooseAdaptiveStrategy_thresholds _).2.2.1 (by decide) (by decide),
   (chooseAdaptiveStrategy_thresholds _).2.2.2 (by decide)⟩

/-- The state obtained by learning the specification's 12-word scenario
phrase into a fresh basic state. -/
def scenarioState : MLState :=
  learnFromSuccess (freshMLState 0) twelveWordPhrase "ETH" 100 0

/-- C6: learning the scenario phrase into a fresh state yields
`wordFrequency["abandon"] = 1`, `positionPreferences[0]["abandon"] = 1`,
`wordPairs["abandon"]["ability"] = 1` and `totalSuccesses = 1`. -/
theorem learnFromSuccess_first_scenario :
    mget scenarioState.wordFrequency "abandon" = some 1 ∧
    (mget scenarioState.positionPreferences 0).bind (fun pm => mget pm "abandon") = some 1 ∧
    (mget scenarioState.wordPairs "abandon").bind (fun pm => mget pm "ability") = some 1 ∧
    scenarioState.totalSuccesses = 1 := by
  refine ⟨by decide, by decide, by decide, by decide⟩

/-- The `missingWords` field expressed by the definition of
`analyzeSeedPhrase` (the projection computes through the record literal). -/
theorem analyzeSeedPhrase_missing_def (phrase : String) :
    (analyzeSeedPhrase phrase).missingWords =
      (if (analyzeSeedPhrase phrase).words.length ≤ 12 then (12 : Int) else 24)
        - (analyzeSeedPhrase phrase).validWords.length := rfl

/-- The `validWords` field is a filter of the `words` field. -/
theorem analyzeSeedPhrase_valid_def (phrase : String) :
    (analyzeSeedPhrase phrase).validWords =
      (analyzeSeedPhrase phrase).words.filter (fun w => isValidBIP39Word w) := rfl

/-- C10: `analyzeSeedPhrase` reports
`missingWords = (words.length <= 12 ? 12 : 24) - validWords.length`, and in
particular the value is negative whenever more than 24 tokens are found in
the wordlist. -/
theorem analyzeSeedPhrase_missingWords (phrase : String) :
    ((analyzeSeedPhrase phrase).missingWords =
      (if (analyzeSeedPhrase phrase).words.length ≤ 12 then (12 : Int) else 24)
        - (analyzeSeedPhrase phrase).validWords.length) ∧
    (24 < (analyzeSeedPhrase phrase).validWords.length →
      (analyzeSeedPhrase phrase).missingWords < 0) := by
  refine ⟨analyzeSeedPhrase_missing_def phrase, fun h => ?_⟩
  have hle : (analyzeSeedPhrase phrase).validWords.length ≤
      (analyzeSeedPhrase phrase).words.length := by
    rw [analyzeSeedPhrase_valid_def]
    exact List.length_filter_le _ _
  rw [analyzeSeedPhrase_missing_def, if_neg (by omega)]
  omega

/-- Twenty-five valid wordlist tokens. -/
def twentyFiveWordPhrase : String :=
  "abandon abandon abandon abandon abandon abandon abandon abandon abandon abandon abandon abandon abandon abandon abandon abandon abandon abandon abandon abandon abandon abandon abandon abandon abandon"

/-- Witness for C10: on a 25-token all-valid phrase, more than 24 tokens are
valid and `missingWords` is negative (`24 - 25 = -1`). -/
theorem analyzeSeedPhrase_missingWords_witness :
    24 < (analyzeSeedPhrase twentyFiveWordPhrase).validWords.length ∧
    (analyzeSeedPhrase twentyFiveWordPhrase).missingWords < 0 :=
  ⟨by decide, (analyzeSeedPhrase_missingWords twentyFiveWordPhrase).2 (by decide)⟩

/-- C7: when the merged weights sum to 1 within the 0.01 tolerance,
`setHybridWeights` succeeds and stores exactly the merged weights; when the
merged sum is outside the tolerance it throws the validation error and the
previously stored weights are unchanged. -/
theorem setHybridWeights_tolerance (stored : HybridWeights) (u : HybridWeightsUpdate) :
    (|weightsSum (mergeHybridWeights stored u) - 1| ≤ 1/100 →
      setHybridWeights stored u = .ok (mergeHybridWeights stored u) ∧
      storedAfterSetHybridWeights stored u = mergeHybridWeights stored u) ∧
    (1/100 < |weightsSum (mergeHybridWeights stored u) - 1| →
      setHybridWeights stored u = .error "Hybrid weights must sum to 1.0" ∧
      storedAfterSetHybridWeights stored u = stored) := by
  constructor
  · intro h
    have hok : setHybridWeights stored u = .ok (mergeHybridWeights stored u) := by
      show (if |weightsSum (mergeHybridWeights stored u) - 1| > 1/100
            then (Except.error "Hybrid weights must sum to 1.0" : Except String HybridWeights)
            else .ok (mergeHybridWeights stored u)) = .ok (mergeHybridWeights stored u)
      rw [if_neg (not_lt.mpr h)]
    exact ⟨hok, by unfold storedAfterSetHybridWeights; rw [hok]⟩
  · intro h
    have herr : setHybridWeights stored u = .error "Hybrid weights must sum to 1.0" := by
      show (if |weightsSum (mergeHybridWeights stored u) - 1| > 1/100
            then (Except.error "Hybrid weights must sum to 1.0" : Except String HybridWeights)
            else .ok (mergeHybridWeights stored u)) = .error "Hybrid weights must sum to 1.0"
      rw [if_pos h]
    exact ⟨herr, by unfold storedAfterSetHybridWeights; rw [herr]⟩

/-- A partial update whose merged sum is exactly 1. -/
def updOk : HybridWeightsUpdate :=
  { frequency := some (1/2), positional := some (1/5), correlation := none }

/-- A partial update whose merged sum is 1.6, outside the tolerance. -/
def updBad : HybridWeightsUpdate :=
  { frequency := some (9/10), positional := none, correlation := none }

/-- Witness for C7: merging `{frequency 0.5, positional 0.2}` into the
default weights sums to 1 and is accepted; merging `{frequency 0.9}` sums to
1.6, is rejected, and the stored weights stay the defaults. -/
theorem setHybridWeights_tolerance_witness :
    setHybridWeights defaultHybridWeights updOk =
      .ok (mergeHybridWeights defaultHybridWeights updOk) ∧
    storedAfterSetHybridWeights defaultHybridWeights updBad = defaultHybridWeights :=
  ⟨((setHybridWeights_tolerance defaultHybridWeights updOk).1
      (by
        have hs : weightsSum (mergeHybridWeights defaultHybridWeights updOk) = 1 := by
          norm_num [weightsSum, mergeHybridWeights, defaultHybridWeights, updOk]
        rw [hs]
        norm_num)).1,
   ((setHybridWeights_tolerance defaultHybridWeights updBad).2
      (by
        have hs : weightsSum (mergeHybridWeights defaultHybridWeights updBad) = 8/5 := by
          norm_num [weightsSum, mergeHybridWeights, defaultHybridWeights, updBad]
        rw [hs, show (8 : ℚ)/5 - 1 = 3/5 by norm_num, abs_of_nonneg (by norm_num)]
        norm_num)).2⟩

/-- C3: the claim states that serializing and deserializing a learned state
preserves all maps including their keys, but the advanced state's
`wordLengthDistribution` is keyed by JavaScript numbers, and
`mapToObject` / `objectToMap` force every key through a property name: the
round trip turns the number key `7` (present with count 2 after learning the
scenario phrase) into the string key `"7"`, so lookups with number keys find
nothing afterwards. -/
theorem serializeState_number_keys_stringified :
    mget sampleWordLengthDistribution (JSKey.num 7) = some 2 ∧
    mget (objectToMap (mapToObject sampleWordLengthDistribution)) (JSKey.num 7) = none ∧
    mget (objectToMap (mapToObject sampleWordLengthDistribution)) (JSKey.str "7") = some 2 ∧
    objectToMap (mapToObject sampleWordLengthDistribution) ≠ sampleWordLengthDistribution := by
  refine ⟨by decide, by decide, by decide, by decide⟩

/-- Comparing hundredths: `a/100 < k/100` over `ℚ` is `a < k` over `ℕ`. -/
theorem div100_lt (a k : ℕ) : ((a : ℚ)/100 < (k : ℚ)/100) ↔ a < k := by
  rw [div_lt_div_iff_of_pos_right (by norm_num)]
  exact_mod_cast Iff.rfl

/-- Region characterization of `hybridBranchChoice` on the grid of
hundredths, at a position past the first with every learned distribution
present: positional exactly when the first draw is below 0.4, correlated
exactly when the first draw is at least 0.4 and the second below 0.7,
frequency exactly when the first is at least 0.4 and the second at least
0.7. -/
theorem hybridBranchChoice_regions (a b : ℕ) :
    (hybridBranchChoice ((a : ℚ)/100) ((b : ℚ)/100) 1 true true true true true
        = .positional ↔ a < 40) ∧
    (hybridBranchChoice ((a : ℚ)/100) ((b : ℚ)/100) 1 true true true true true
        = .correlated ↔ (40 ≤ a ∧ b < 70)) ∧
    (hybridBranchChoice ((a : ℚ)/100) ((b : ℚ)/100) 1 true true true true true
        = .frequency ↔ (40 ≤ a ∧ 70 ≤ b)) := by
  have h1 : ((a : ℚ)/100 < 2/5) ↔ a < 40 := by
    rw [show (2/5 : ℚ) = (40 : ℕ)/100 by norm_num]
    exact div100_lt a 40
  have h2 : ((b : ℚ)/100 < 7/10) ↔ b < 70 := by
    rw [show (7/10 : ℚ) = (70 : ℕ)/100 by norm_num]
    exact div100_lt b 70
  unfold hybridBranchChoice
  split_ifs with hc1 hc2 <;> simp_all

/-- The cell counts of the three learned sources on the 100 × 100 grid of
`Math.random()` hundredths. -/
theorem hybridGridCount_eval :
    hybridGridCount .positional = 4000 ∧ hybridGridCount .correlated = 4200 ∧
    hybridGridCount .frequency = 1800 := by
  refine ⟨?_, ?_, ?_⟩
  · unfold hybridGridCount
    rw [List.map_congr_left (g := fun a =>
        ((List.range 100).filter (fun b => decide (a < 40))).length) ?_]
    · decide
    · intro a ha
      apply congrArg List.length
      apply List.filter_congr
      intro b hb
      have h := (hybridBranchChoice_regions a b).1
      cases hd : decide (a < 40) with
      | true => simp only [decide_eq_true_eq] at hd; simp [h.mpr hd]
      | false =>
        simp only [decide_eq_false_iff_not] at hd
        simp only [decide_eq_false_iff_not]
        exact fun hc => hd (h.mp hc)
  · unfold hybridGridCount
    rw [List.map_congr_left (g := fun a =>
        ((List.range 100).filter (fun b => decide (40 ≤ a ∧ b < 70))).length) ?_]
    · decide
    · intro a ha
      apply congrArg List.length
      apply List.filter_congr
      intro b hb
      have h := (hybridBranchChoice_regions a b).2.1
      cases hd : decide (40 ≤ a ∧ b < 70) with
      | true => simp only [decide_eq_true_eq] at hd; simp [h.mpr hd]
      | false =>
        simp only [decide_eq_false_iff_not] at hd
        simp only [decide_eq_false_iff_not]
        exact fun hc => hd (h.mp hc)
  · unfold hybridGridCount
    rw [List.map_congr_left (g := fun a =>
        ((List.range 100).filter (fun b => decide (40 ≤ a ∧ 70 ≤ b))).length) ?_]
    · decide
    · intro a ha
      apply congrArg List.length
      apply List.filter_congr
      intro b hb
      have h := (hybridBranchChoice_regions a b).2.2
      cases hd : decide (40 ≤ a ∧ 70 ≤ b) with
      | true => simp only [decide_eq_true_eq] at hd; simp [h.mpr hd]
      | false =>
        simp only [decide_eq_false_iff_not] at hd
        simp only [decide_eq_false_iff_not]
        exact fun hc => hd (h.mp hc)

/-- C1: the claim (and the source's own inline comments) put the
per-position source split of `generateHybridBased` at 40% positional,
30% correlated, 30% frequency, but on the uniform 100 × 100 grid of the two
`Math.random()` draws — position past the first, all learned data present —
the code selects positional on 4000 cells (40%), correlated on 4200 cells
(42%, not 30%: the second branch uses a fresh draw against 0.7 instead of
continuing the first draw, so it captures 0.6 × 0.7 of the mass) and
frequency on only 1800 cells (18%, not 30%). -/
theorem generateHybridBased_weights_bug :
    hybridGridCount .positional = 4000 ∧
    hybridGridCount .correlated = 4200 ∧
    hybridGridCount .frequency = 1800 ∧
    (4000 : ℚ) / 10000 = 4/10 ∧
    (4200 : ℚ) / 10000 ≠ 3/10 ∧
    (1800 : ℚ) / 10000 ≠ 3/10 :=
  ⟨hybridGridCount_eval.1, hybridGridCount_eval.2.1, hybridGridCount_eval.2.2,
   by norm_num, by norm_num, by norm_num⟩

/-- C8 (as stated, at a concrete input): with every upstream fetch failing
on every attempt, `checkWalletBalanceWithRetry` performs exactly one checker
invocation — not the claimed three attempts — because the per-currency
checker absorbs the failure and returns the zero-balance fallback as a
success.  The zero-balance, `hasBalance = false` part of the claim does
hold. -/
theorem checkWalletBalanceWithRetry_one_attempt :
    checkWalletBalanceWithRetry "0x0000000000000000000000000000000000000000" .ETH
        allFailWorlds 3
      = (zeroWalletBalance "0x0000000000000000000000000000000000000000", 1) ∧
    ¬ (checkWalletBalanceWithRetry "0x0000000000000000000000000000000000000000" .ETH
        allFailWorlds 3).2 = 3 := by
  refine ⟨rfl, fun h => ?_⟩
  have h1 : (checkWalletBalanceWithRetry "0x0000000000000000000000000000000000000000" .ETH
      allFailWorlds 3).2 = 1 := rfl
  omega

/-- C8 (amended): whenever the upstream source fails on every attempt, the
balance check returns the zero-balance result with `hasBalance = false`
after a single checker invocation (the retry loop never engages, because
`checkEthereumBalance` / `checkBitcoinBalance` catch the failure internally
and return the fallback), and the per-currency checker never throws at
all. -/
theorem checkWalletBalanceWithRetry_absorbs_failures (address : String)
    (type : WalletType) (worlds : ℕ → Upstream)
    (hfail : ∀ n, upstreamFails type (worlds n)) :
    checkWalletBalanceWithRetry address type worlds 3 = (zeroWalletBalance address, 1) ∧
    (checkWalletBalanceWithRetry address type worlds 3).1.hasBalance = false ∧
    (∀ u, ∃ w, checkOnce address type u = .ok w) := by
  have hzero : checkOnce address type (worlds 0) = .ok (zeroWalletBalance address) := by
    cases type with
    | ETH =>
      obtain ⟨e, he⟩ := hfail 0
      have htry : checkEthereumBalanceTry address (worlds 0).eth = .error e := by
        unfold checkEthereumBalanceTry
        rw [he]
        rfl
      unfold checkOnce checkEthereumBalance
      rw [htry]
    | BTC =>
      obtain ⟨e, he⟩ := hfail 0
      have htry : checkBitcoinBalanceTry address (worlds 0).btc = .error e := by
        unfold checkBitcoinBalanceTry
        rw [he]
        rfl
      unfold checkOnce checkBitcoinBalance
      rw [htry]
  have hstep : ∀ n m, retryLoop address type worlds (n + 1) m =
      (match checkOnce address type (worlds m) with
       | .ok w => (w, m + 1)
       | .error _ => retryLoop address type worlds n (m + 1)) := fun n m => rfl
  have hmain : checkWalletBalanceWithRetry address type worlds 3 = (zeroWalletBalance address, 1) := by
    unfold checkWalletBalanceWithRetry
    rw [show (3 : ℕ) = 2 + 1 from rfl, hstep 2 0, hzero]
  refine ⟨hmain, by rw [hmain]; rfl, fun u => ?_⟩
  cases type with
  | ETH =>
    unfold checkOnce checkEthereumBalance
    cases checkEthereumBalanceTry address u.eth with
    | ok w => exact ⟨w, rfl⟩
    | error e => exact ⟨zeroWalletBalance address, rfl⟩
  | BTC =>
    unfold checkOnce checkBitcoinBalance
    cases checkBitcoinBalanceTry address u.btc with
    | ok w => exact ⟨w, rfl⟩
    | error e => exact ⟨zeroWalletBalance address, rfl⟩

/-- Witness for the amended C8: the Bitcoin path against an upstream that
fails on every attempt. -/
theorem checkWalletBalanceWithRetry_absorbs_failures_witness :
    checkWalletBalanceWithRetry "1A1zP1eP5QGefi2DMPTfTL5SLmv7DivfNa" .BTC allFailWorlds 3
      = (zeroWalletBalance "1A1zP1eP5QGefi2DMPTfTL5SLmv7DivfNa", 1) :=
  (checkWalletBalanceWithRetry_absorbs_failures "1A1zP1eP5QGefi2DMPTfTL5SLmv7DivfNa" .BTC
    allFailWorlds (fun _ => ⟨"fetch failed", rfl⟩)).1

/-- Looking up the only key of a one-entry map. -/
theorem mget_singleton {K V : Type} [DecidableEq K] (p : K) (v : V) :
    mget [(p, v)] p = some v := by
  simp [mget, List.find?]

/-- Overwriting the only key of a one-entry map. -/
theorem mset_singleton {K V : Type} [DecidableEq K] (p : K) (v w : V) :
    mset [(p, v)] p w = [(p, w)] := by
  simp [mset, List.find?]

/-- The 3-token pattern key of `decayState0`. -/
def pat : String := "abandon ability able"

/-- The decay loop body with both guards resolved: pattern old enough, new
score at least the 0.5 floor — the score is multiplied by
`decayRate ^ (daysOld - minPatternAge)` in place. -/
theorem decayPatternStep_eval (now : Int) (cfg : AdvDecayConfig)
    (acc : List (String × ℝ) × List (String × Int)) (entry : String × Int)
    (h1 : ((now - entry.2 : ℤ) : ℝ) > cfg.minPatternAge * (24 * 60 * 60 * 1000))
    (h2 : ¬ ((mget acc.1 entry.1).getD 0) *
        (cfg.decayRate ^ (((now - entry.2 : ℤ) : ℝ) / (24 * 60 * 60 * 1000)
          - cfg.minPatternAge)) < 0.5) :
    decayPatternStep now cfg acc entry =
      (mset acc.1 entry.1
        (((mget acc.1 entry.1).getD 0) *
          (cfg.decayRate ^ (((now - entry.2 : ℤ) : ℝ) / (24 * 60 * 60 * 1000)
            - cfg.minPatternAge))),
       acc.2) := by
  simp only [decayPatternStep]
  rw [if_pos h1, if_neg h2]

/-- The configuration block of `decayState0`. -/
theorem cfg_eval : decayState0.config = { decayRate := 1/2, minPatternAge := 7 } := rfl

/-- At eight days, a pattern learned at epoch 0 is one day past a seven-day
`minPatternAge`. -/
theorem exp_eval : ((day8ms - (0 : ℤ) : ℤ) : ℝ) / (24 * 60 * 60 * 1000) - (7 : ℝ) = 1 := by
  norm_num [day8ms]

/-- First decay pass over the single pattern: score 4 becomes
`4 * (1/2)^1 = 2`, above the deletion floor. -/
theorem decayStep_first :
    decayPatternStep day8ms decayState0.config ([(pat, 4)], [(pat, 0)]) (pat, 0)
      = ([(pat, 2)], [(pat, 0)]) := by
  rw [decayPatternStep_eval day8ms decayState0.config ([(pat, 4)], [(pat, 0)]) (pat, 0)
      (by rw [cfg_eval]; norm_num [day8ms])
      (by
        rw [cfg_eval]
        simp only [mget_singleton, Option.getD_some]
        rw [show ((day8ms - (0 : ℤ) : ℤ) : ℝ) / (24 * 60 * 60 * 1000) - (7 : ℝ) = 1 from exp_eval,
          Real.rpow_one]
        norm_num)]
  rw [cfg_eval]
  simp only [mget_singleton, Option.getD_some]
  rw [show ((day8ms - (0 : ℤ) : ℤ) : ℝ) / (24 * 60 * 60 * 1000) - (7 : ℝ) = 1 from exp_eval,
    Real.rpow_one]
  rw [show (4 : ℝ) * ((1 : ℝ)/2) = 2 by norm_num]
  rw [mset_singleton pat 4 2]

/-- Second decay pass at the same instant: the pattern's age was never
refreshed, so the guard fires again and score 2 becomes `2 * (1/2)^1 = 1`. -/
theorem decayStep_second :
    decayPatternStep day8ms decayState0.config ([(pat, 2)], [(pat, 0)]) (pat, 0)
      = ([(pat, 1)], [(pat, 0)]) := by
  rw [decayPatternStep_eval day8ms decayState0.config ([(pat, 2)], [(pat, 0)]) (pat, 0)
      (by rw [cfg_eval]; norm_num [day8ms])
      (by
        rw [cfg_eval]
        simp only [mget_singleton, Option.getD_some]
        rw [show ((day8ms - (0 : ℤ) : ℤ) : ℝ) / (24 * 60 * 60 * 1000) - (7 : ℝ) = 1 from exp_eval,
          Real.rpow_one]
        norm_num)]
  rw [cfg_eval]
  simp only [mget_singleton, Option.getD_some]
  rw [show ((day8ms - (0 : ℤ) : ℤ) : ℝ) / (24 * 60 * 60 * 1000) - (7 : ℝ) = 1 from exp_eval,
    Real.rpow_one]
  rw [show (2 : ℝ) * ((1 : ℝ)/2) = 1 by norm_num]
  rw [mset_singleton pat 2 1]

/-- The first `applyPatternDecay` call on `decayState0`. -/
theorem applyPatternDecay_first :
    applyPatternDecay day8ms decayState0 =
      { patternAges := [(pat, 0)], patternScores := [(pat, 2)],
        config := decayState0.config } := by
  simp only [applyPatternDecay]
  rw [show decayState0.patternAges = [(pat, 0)] from rfl,
    show decayState0.patternScores = [(pat, 4)] from rfl]
  simp only [List.foldl_cons, List.foldl_nil]
  rw [decayStep_first]

/-- The second, immediately following `applyPatternDecay` call. -/
theorem applyPatternDecay_second :
    applyPatternDecay day8ms
        ({ patternAges := [(pat, 0)], patternScores := [(pat, 2)],
           config := decayState0.config } : AdvDecayState) =
      { patternAges := [(pat, 0)], patternScores := [(pat, 1)],
        config := decayState0.config } := by
  simp only [applyPatternDecay]
  simp only [List.foldl_cons, List.foldl_nil]
  rw [decayStep_second]

/-- C2: the claim states that a second `applyPatternDecay` call with no
elapsed time and no intervening learning leaves the state unchanged, but the
loop never refreshes `patternAges` and always re-multiplies by
`decayRate ^ (daysOld - minPatternAge)`: on `decayState0` at the eight-day
mark, the first call takes the pattern's score from 4 to 2 and the
immediately repeated call takes it on to 1, so the two-call state differs
from the one-call state. -/
theorem applyPatternDecay_twice_decays_twice :
    mget (applyPatternDecay day8ms decayState0).patternScores pat = some 2 ∧
    mget (applyPatternDecay day8ms (applyPatternDecay day8ms decayState0)).patternScores pat
      = some 1 ∧
    applyPatternDecay day8ms (applyPatternDecay day8ms decayState0)
      ≠ applyPatternDecay day8ms decayState0 := by
  refine ⟨by rw [applyPatternDecay_first]; exact mget_singleton pat 2,
    by rw [applyPatternDecay_first, applyPatternDecay_second]; exact mget_singleton pat 1,
    fun heq => ?_⟩
  rw [applyPatternDecay_first, applyPatternDecay_second] at heq
  have hs := congrArg (fun s : AdvDecayState => s.patternScores) heq
  simp only [List.cons.injEq, Prod.mk.injEq] at hs
  have h12 : (1 : ℝ) = 2 := hs.1.2
  norm_num at h12

end CryptoRecover
